import Mathlib

/-!
Verification development for the decision-boundaries Streamlit application
(src/app.py).  The numeric pipeline is shallowly embedded over ℚ:

* the numpy global pseudo-random generator is modelled as an explicit
  `RNG` state threaded through the pipeline (a linear congruential step
  stands in for MT19937; the claims proved here depend only on the seeding
  discipline and on the range of the produced variates, not on the exact
  stream);
* the scikit-learn helpers used by the app (`make_blobs`,
  `train_test_split`, `StandardScaler`, `confusion_matrix`,
  `classification_report`) are modelled from their documented behaviour;
* the six classifiers are opaque: the development is parameterised over a
  family of fit functions, so every theorem below holds for all of them;
* floating point numbers are represented by rationals; `ratSqrt` is a
  computable stand-in for the float square root (no property proved here
  depends on its values).

Alongside the pure embedding there is an `Except`-monad mirror (`mainE`
etc.) in which every library call is an oracle that may fail; it is used
to state the error-propagation and the all-calls-succeed properties.
-/

namespace DecisionBoundaries

/-- Global numpy random-generator state (np.random), modelled explicitly. -/
structure RNG where
  state : ℕ

/-- Modelled np.random.seed: resets the global generator state. -/
def RNG.seed (n : ℕ) : RNG :=
  ⟨(1000003 * n + 12345) % 4294967296⟩

/-- One step of the modelled generator: a 32-bit linear congruential update. -/
def RNG.next (g : RNG) : ℕ × RNG :=
  let s := (1664525 * g.state + 1013904223) % 4294967296
  (s, ⟨s⟩)

/-- A variate in [0, 1), as drawn by np.random.uniform. -/
def RNG.unitFloat (g : RNG) : ℚ × RNG :=
  let r := g.next
  ((r.1 : ℚ) / 4294967296, r.2)

/-- Gaussian noise stand-in used by the make_blobs model: a variate in
[-1, 1).  The claims do not depend on the distribution. -/
def RNG.noise (g : RNG) : ℚ × RNG :=
  let u := g.unitFloat
  (2 * u.1 - 1, u.2)

/-- One uniform draw in [low, low + (high - low)), i.e. np.random.uniform
on scalars. -/
def uniformScalar (low high : ℚ) (g : RNG) : ℚ × RNG :=
  let u := g.unitFloat
  (low + u.1 * (high - low), u.2)

/-- np.random.uniform(low=[x_min, y_min], high=[x_max, y_max],
size=(n, 2)): n rows, each drawing the x coordinate then the y
coordinate. -/
def uniformPoints (x_min x_max y_min y_max : ℚ) : ℕ → RNG → List (ℚ × ℚ) × RNG
  | 0, g => ([], g)
  | n + 1, g =>
    let px := uniformScalar x_min x_max g
    let py := uniformScalar y_min y_max px.2
    let rest := uniformPoints x_min x_max y_min y_max n py.2
    ((px.1, py.1) :: rest.1, rest.2)

/-- src/app.py lines 17-19: reseeds the global generator with the constant
42 and draws n_clusters points in the given rectangle.  The incoming
global state `_g` is discarded by the reseed, exactly as in the source. -/
def generate_random_points_in_square (_g : RNG) (x_min x_max y_min y_max : ℚ)
    (n_clusters : ℕ) : List (ℚ × ℚ) × RNG :=
  let g1 := RNG.seed 42
  uniformPoints x_min x_max y_min y_max n_clusters g1

/-- Points of one blob: cnt samples centred at c with spread std, all
labelled with the index of the center. -/
def blobCluster (c : ℚ × ℚ) (std : ℚ) (label : ℕ) : ℕ → RNG → List ((ℚ × ℚ) × ℕ) × RNG
  | 0, g => ([], g)
  | cnt + 1, g =>
    let n1 := g.noise
    let n2 := n1.2.noise
    let rest := blobCluster c std label cnt n2.2
    (((c.1 + std * n1.1, c.2 + std * n2.1), label) :: rest.1, rest.2)

/-- Blob generation over the list of centers: center i receives
n / k samples plus one extra while i < n % k, matching the even sklearn
distribution of n_samples over k centers. -/
def genBlobsGo (std : ℚ) (n k : ℕ) : List (ℚ × ℚ) → ℕ → RNG → List ((ℚ × ℚ) × ℕ) × RNG
  | [], _, g => ([], g)
  | c :: cs, i, g =>
    let cnt := n / k + if i < n % k then 1 else 0
    let pts := blobCluster c std i cnt g
    let rest := genBlobsGo std n k cs (i + 1) pts.2
    (pts.1 ++ rest.1, rest.2)

/-- Fuel-driven Fisher-Yates style shuffle drawing indices from the
generator; used to model the shuffling performed by make_blobs and the
permutation drawn by train_test_split. -/
def shuffleGo {α : Type} : ℕ → List α → RNG → List α × RNG
  | 0, xs, g => (xs, g)
  | fuel + 1, xs, g =>
    let r := RNG.next g
    match xs[r.1 % xs.length]? with
    | none => (xs, r.2)
    | some a =>
      let rest := shuffleGo fuel (xs.eraseIdx (r.1 % xs.length)) r.2
      (a :: rest.1, rest.2)

/-- Shuffle of a whole list. -/
def shuffle {α : Type} (xs : List α) (g : RNG) : List α × RNG :=
  shuffleGo xs.length xs g

/-- Modelled sklearn.datasets.make_blobs with explicit centers: a private
generator is seeded from random_state, n_samples points are distributed
evenly over the centers (label = center index), and the labelled samples
are shuffled.  Returns (X, y). -/
def make_blobs (n_samples : ℕ) (cluster_std : ℚ) (centers : List (ℚ × ℚ))
    (random_state : ℕ) : List (ℚ × ℚ) × List ℕ :=
  let g := RNG.seed random_state
  let k := centers.length
  let pairs := genBlobsGo cluster_std n_samples k centers 0 g
  let sh := shuffle pairs.1 pairs.2
  (sh.1.map Prod.fst, sh.1.map Prod.snd)

/-- src/app.py lines 21-25: centers drawn in [-4, 4] × [-4, 4] by
generate_random_points_in_square (which reseeds the global generator),
then make_blobs with those centers and the random_state of the caller.  The
post-draw global state is returned alongside (X, y). -/
def generate_data (g : RNG) (n_samples : ℕ) (cluster_std : ℚ)
    (random_state n_clusters : ℕ) : (List (ℚ × ℚ) × List ℕ) × RNG :=
  let cg := generate_random_points_in_square g (-4) 4 (-4) 4 n_clusters
  (make_blobs n_samples cluster_std cg.1 random_state, cg.2)

/-- Modelled sklearn.model_selection.train_test_split with
test_size=0.3: a permutation of the indices is drawn from a generator
seeded with random_state, the first ceil(0.3 * n) permuted indices form
the test set and the rest the training set.  Returns
(X_train, X_test, y_train, y_test) as in the source. -/
def train_test_split (X : List (ℚ × ℚ)) (y : List ℕ) (random_state : ℕ) :
    List (ℚ × ℚ) × List (ℚ × ℚ) × List ℕ × List ℕ :=
  let n := X.length
  let nTest := (3 * n + 9) / 10
  let perm := (shuffle (List.range n) (RNG.seed random_state)).1
  let testIdx := perm.take nTest
  let trainIdx := perm.drop nTest
  (trainIdx.filterMap (fun i => X[i]?), testIdx.filterMap (fun i => X[i]?),
   trainIdx.filterMap (fun i => y[i]?), testIdx.filterMap (fun i => y[i]?))

/-- Computable stand-in for the float square root (five Newton steps);
no property proved below depends on its values. -/
def ratSqrt (q : ℚ) : ℚ :=
  if q ≤ 0 then 0
  else
    let s := fun x : ℚ => (x + q / x) / 2
    s (s (s (s (s (max q 1)))))

/-- sklearn replaces a zero scale by 1 so that constant features are left
centred rather than divided by zero. -/
def handle_zeros_in_scale (s : ℚ) : ℚ :=
  if s = 0 then 1 else s

/-- Fitted StandardScaler state: per-feature mean and scale. -/
structure StandardScaler where
  meanX : ℚ
  meanY : ℚ
  scaleX : ℚ
  scaleY : ℚ

/-- Sum of a list of rationals. -/
def qsum (l : List ℚ) : ℚ :=
  l.foldr (· + ·) 0

/-- Modelled StandardScaler.fit: per-feature mean and the square root of
the per-feature population variance (zero scales replaced by 1). -/
def StandardScaler.fit (X : List (ℚ × ℚ)) : StandardScaler :=
  let n : ℚ := (X.length : ℚ)
  let mx := qsum (X.map Prod.fst) / n
  let my := qsum (X.map Prod.snd) / n
  let vx := qsum (X.map (fun p => (p.1 - mx) * (p.1 - mx))) / n
  let vy := qsum (X.map (fun p => (p.2 - my) * (p.2 - my))) / n
  ⟨mx, my, handle_zeros_in_scale (ratSqrt vx), handle_zeros_in_scale (ratSqrt vy)⟩

/-- Modelled StandardScaler.transform: centre and rescale each feature
with the fitted parameters. -/
def StandardScaler.transform (s : StandardScaler) (X : List (ℚ × ℚ)) : List (ℚ × ℚ) :=
  X.map (fun p => ((p.1 - s.meanX) / s.scaleX, (p.2 - s.meanY) / s.scaleY))

/-- scaler.fit_transform(X): fit on X, then transform X with the fitted
parameters.  Returns the fitted scaler together with the transformed
data, mirroring src/app.py lines 94-95. -/
def StandardScaler.fit_transform (X : List (ℚ × ℚ)) : StandardScaler × List (ℚ × ℚ) :=
  let s := StandardScaler.fit X
  (s, s.transform X)

/-- A trained model is its prediction function on feature vectors. -/
abbrev Model := (ℚ × ℚ) → ℕ

/-- An (opaque) sklearn classifier: fitting consumes the training data and
the global generator state (DecisionTreeClassifier and
RandomForestClassifier draw from np.random when random_state is None) and
yields a prediction function.  The development is parameterised over
these. -/
structure Classifier where
  fit : List (ℚ × ℚ) → List ℕ → RNG → Model × RNG

/-- model.predict on a batch of rows. -/
def predictList (m : Model) (X : List (ℚ × ℚ)) : List ℕ :=
  X.map m

/-- A confusion matrix: one row per observed label. -/
abbrev Cm := List (List ℕ)

/-- Sorted list of the distinct labels occurring in either argument, as
np.unique on the concatenation (used by confusion_matrix). -/
def cmLabels (y_true y_pred : List ℕ) : List ℕ :=
  (List.range ((y_true ++ y_pred).foldr max 0 + 1)).filter
    (fun l => (y_true ++ y_pred).contains l)

/-- Modelled sklearn.metrics.confusion_matrix: entry (i, j) counts the
samples whose true label is the i-th and whose predicted label is the
j-th distinct label. -/
def confusion_matrix (y_true y_pred : List ℕ) : Cm :=
  let ls := cmLabels y_true y_pred
  ls.map (fun t =>
    ls.map (fun pr =>
      ((y_true.zip y_pred).filter (fun q => q.1 == t && q.2 == pr)).length))

/-- Modelled sklearn.metrics.classification_report: a textual per-class
summary computed from the same pair of label lists (the exact sklearn
formatting is a library detail no claim constrains). -/
def classification_report (y_true y_pred : List ℕ) : String :=
  String.intercalate ("; ")
    ((cmLabels y_true y_pred).map (fun l =>
      toString l ++ ": support " ++ toString (y_true.filter (· == l)).length
        ++ ", correct "
        ++ toString ((y_true.zip y_pred).filter (fun q => q.1 == l && q.2 == l)).length))

/-- src/app.py lines 27-32: fit the model on the training split, predict
the held-out test split, and compute the confusion matrix and the
classification report from the test labels and those predictions. -/
def train_and_evaluate_model (clf : Classifier) (X_train X_test : List (ℚ × ℚ))
    (y_train y_test : List ℕ) (g : RNG) : (Model × Cm × String) × RNG :=
  let fr := clf.fit X_train y_train g
  let y_pred := predictList fr.1 X_test
  ((fr.1, confusion_matrix y_test y_pred, classification_report y_test y_pred), fr.2)

/-- Python int(): truncation of a rational towards zero. -/
def pyInt (q : ℚ) : ℤ :=
  if 0 ≤ q then ⌊q⌋ else ⌈q⌉

/-- Minimum of a list of rationals (0 on the empty list; numpy would
raise there, and the application never reaches that case). -/
def colMin : List ℚ → ℚ
  | [] => 0
  | x :: xs => xs.foldl min x

/-- Maximum of a list of rationals (0 on the empty list). -/
def colMax : List ℚ → ℚ
  | [] => 0
  | x :: xs => xs.foldl max x

/-- np.arange(lo, hi, step) for positive step: ceil((hi - lo) / step)
values lo, lo + step, .... -/
def arange (lo hi step : ℚ) : List ℚ :=
  (List.range (if hi ≤ lo then 0 else (⌈(hi - lo) / step⌉).toNat)).map
    (fun i => lo + step * (i : ℚ))

/-- The raveled mesh points visualize_classifier predicts on: the grid
over [min - 1, max + 1) per feature with step 0.01, in the row-major
order of np.c_[x_vals.ravel(), y_vals.ravel()]. -/
def meshPoints (X : List (ℚ × ℚ)) : List (ℚ × ℚ) :=
  let xs := arange (colMin (X.map Prod.fst) - 1) (colMax (X.map Prod.fst) + 1) (1 / 100)
  let ys := arange (colMin (X.map Prod.snd) - 1) (colMax (X.map Prod.snd) + 1) (1 / 100)
  ys.flatMap (fun yv => xs.map (fun xv => (xv, yv)))

/-- Decision-boundary figure produced by visualize_classifier: the mesh
grids, the raveled mesh predictions, the scattered training points with
their colours, and the axis limits and ticks. -/
structure PlotSpec where
  title : String
  meshX : List ℚ
  meshY : List ℚ
  meshOutput : List ℕ
  scatter : List ((ℚ × ℚ) × ℕ)
  xlim : ℚ × ℚ
  ylim : ℚ × ℚ
  xticks : List ℚ
  yticks : List ℚ

/-- src/app.py lines 34-50: mesh over [min - 1, max + 1) per feature with
step 0.01, classifier predictions on every mesh point (raveled row-major
exactly as np.c_[x_vals.ravel(), y_vals.ravel()] orders them; the
reshape to the grid is shape bookkeeping), scatter of the data, limits
and integer ticks. -/
def visualize_classifier (classifier : Model) (X : List (ℚ × ℚ)) (y : List ℕ)
    (title : String) : PlotSpec :=
  let min_x := colMin (X.map Prod.fst) - 1
  let max_x := colMax (X.map Prod.fst) + 1
  let min_y := colMin (X.map Prod.snd) - 1
  let max_y := colMax (X.map Prod.snd) + 1
  let step : ℚ := 1 / 100
  let xs := arange min_x max_x step
  let ys := arange min_y max_y step
  let meshPts := ys.flatMap (fun yv => xs.map (fun xv => (xv, yv)))
  { title := title
    meshX := xs
    meshY := ys
    meshOutput := predictList classifier meshPts
    scatter := X.zip y
    xlim := (colMin xs, colMax xs)
    ylim := (colMin ys, colMax ys)
    xticks := arange ((pyInt (colMin (X.map Prod.fst) - 1) : ℤ) : ℚ)
                     ((pyInt (colMax (X.map Prod.fst) + 1) : ℤ) : ℚ) 1
    yticks := arange ((pyInt (colMin (X.map Prod.snd) - 1) : ℤ) : ℚ)
                     ((pyInt (colMax (X.map Prod.snd) + 1) : ℤ) : ℚ) 1 }

/-- One pipeline step, for the execution trace of main. -/
inductive Step
  | genData
  | splitData
  | scaleData
  | fitModel (name : String)
  | evalModel (name : String)
  | plotModel (name : String)
deriving DecidableEq

/-- A rendered UI element. -/
inductive Widget
  | header (s : String)
  | sliderW (label : String) (lo hi default : ℚ)
  | subheaderW (s : String)
  | heatmapW (cm : Cm) (xlabel ylabel title : String)
  | textW (s : String)
  | writeW (s : String)
  | pyplotW (p : PlotSpec)

/-- One tab of the rendered output. -/
structure Tab where
  name : String
  content : List Widget

/-- The four sidebar slider values: the only inputs of the pipeline
(src/app.py lines 84-89). -/
structure Params where
  n_samples : ℕ
  cluster_std : ℚ
  random_state : ℕ
  n_clusters : ℕ

/-- The six model names, in the order of the models dict
(src/app.py lines 97-104). -/
def modelNames : List String :=
  ["Logistic Regression", "Naive Bayes", "SVM", "Decision Tree",
   "Random Forest", "KNN"]

/-- The sidebar as rendered: a header and the four parameter sliders with
their ranges and defaults. -/
def sidebarWidgets : List Widget :=
  [Widget.header ("Data Parameters"),
   Widget.sliderW ("Number of Samples") 300 1000 500,
   Widget.sliderW ("Cluster Standard Deviation") (1 / 10) 3 (1 / 2),
   Widget.sliderW ("Random State") 0 100 42,
   Widget.sliderW ("Number of Clusters") 2 6 2]

/-- An evaluated model entry as stored in the results dict: name, trained
model, confusion matrix, classification report. -/
abbrev Entry := String × Model × Cm × String

/-- src/app.py lines 107-109: for each model name in order, fit and
evaluate, threading the global generator state; also records the fit and
evaluate steps of the trace. -/
def runModels (mk : String → Classifier) (X_train X_test : List (ℚ × ℚ))
    (y_train y_test : List ℕ) : List String → RNG → List Entry × List Step × RNG
  | [], g => ([], [], g)
  | nm :: rest, g =>
    let r := train_and_evaluate_model (mk nm) X_train X_test y_train y_test g
    let rr := runModels mk X_train X_test y_train y_test rest r.2
    ((nm, r.1) :: rr.1, Step.fitModel nm :: Step.evalModel nm :: rr.2.1, rr.2.2)

/-- src/app.py lines 111-123: one tab per results entry showing the
subheader, the confusion-matrix heatmap, the report caption and text,
and the decision-boundary plot of the model on the scaled training
data; also records the plot steps of the trace. -/
def renderTabs (X_train : List (ℚ × ℚ)) (y_train : List ℕ) :
    List Entry → List Tab × List Step
  | [] => ([], [])
  | e :: rest =>
    let spec := visualize_classifier e.2.1 X_train y_train (e.1 ++ " Decision Boundary")
    let rt := renderTabs X_train y_train rest
    ({ name := e.1
       content := [Widget.subheaderW e.1,
                   Widget.heatmapW e.2.2.1 ("Predicted Labels") ("True Labels") ("Confusion Matrix"),
                   Widget.textW ("Classification Report"),
                   Widget.writeW e.2.2.2,
                   Widget.pyplotW spec] } :: rt.1,
     Step.plotModel e.1 :: rt.2)

/-- Everything one run of main produces: the sidebar, the executed-step
trace, the rendered tabs, and the intermediate numeric data (kept so the
theorems can speak about the split and the scaling). -/
structure RunResult where
  sidebar : List Widget
  trace : List Step
  tabs : List Tab
  results : List Entry
  X_train : List (ℚ × ℚ)
  X_test : List (ℚ × ℚ)
  y_train : List ℕ
  y_test : List ℕ
  scaler : StandardScaler

/-- src/app.py lines 52-125: the whole pipeline.  `mk` supplies the six
(opaque) classifiers, `g` is the global generator state left over from
whatever ran before, `p` holds the four slider values. -/
def main (mk : String → Classifier) (g : RNG) (p : Params) : RunResult :=
  let gd := generate_data g p.n_samples p.cluster_std p.random_state p.n_clusters
  let X := gd.1.1
  let y := gd.1.2
  let g1 := gd.2
  let sp := train_test_split X y p.random_state
  let X_train0 := sp.1
  let X_test0 := sp.2.1
  let y_train := sp.2.2.1
  let y_test := sp.2.2.2
  let ft := StandardScaler.fit_transform X_train0
  let scaler := ft.1
  let X_train := ft.2
  let X_test := scaler.transform X_test0
  let rm := runModels mk X_train X_test y_train y_test modelNames g1
  let results := rm.1
  let rt := renderTabs X_train y_train results
  { sidebar := sidebarWidgets
    trace := [Step.genData, Step.splitData, Step.scaleData] ++ rm.2.1 ++ rt.2
    tabs := rt.1
    results := results
    X_train := X_train
    X_test := X_test
    y_train := y_train
    y_test := y_test
    scaler := scaler }

/-- The permitted slider ranges (src/app.py lines 86-89). -/
abbrev InRange (p : Params) : Prop :=
  300 ≤ p.n_samples ∧ p.n_samples ≤ 1000 ∧
  (1 : ℚ) / 10 ≤ p.cluster_std ∧ p.cluster_std ≤ 3 ∧
  p.random_state ≤ 100 ∧
  2 ≤ p.n_clusters ∧ p.n_clusters ≤ 6

/-- Widgets that are one of the three content artifacts of a tab: the
confusion-matrix heatmap, the written classification report, and the
plotted figure. -/
def isArtifact : Widget → Bool
  | Widget.heatmapW _ _ _ _ => true
  | Widget.writeW _ => true
  | Widget.pyplotW _ => true
  | _ => false

/-- The generated dataset of a run, before splitting: exactly what the
X, y = generate_data(...) line of main receives. -/
def rawData (g : RNG) (p : Params) : List (ℚ × ℚ) × List ℕ :=
  (generate_data g p.n_samples p.cluster_std p.random_state p.n_clusters).1

/-- The train/test split of a run, before scaling:
(X_train, X_test, y_train, y_test) as returned by train_test_split. -/
def rawSplit (g : RNG) (p : Params) :
    List (ℚ × ℚ) × List (ℚ × ℚ) × List ℕ × List ℕ :=
  train_test_split (rawData g p).1 (rawData g p).2 p.random_state

/-- The library surface the application calls into, as fallible oracles:
each operation may return a value or raise an error.  Used to state that
the application neither validates inputs nor catches errors. -/
structure Lib where
  uniformO : ℚ → ℚ → ℚ → ℚ → ℕ → RNG → Except String (List (ℚ × ℚ) × RNG)
  makeBlobsO : ℕ → ℚ → List (ℚ × ℚ) → ℕ → Except String (List (ℚ × ℚ) × List ℕ)
  splitO : List (ℚ × ℚ) → List ℕ → ℕ →
    Except String (List (ℚ × ℚ) × List (ℚ × ℚ) × List ℕ × List ℕ)
  scalerFitO : List (ℚ × ℚ) → Except String StandardScaler
  scalerTransformO : StandardScaler → List (ℚ × ℚ) → Except String (List (ℚ × ℚ))
  fitO : String → List (ℚ × ℚ) → List ℕ → RNG → Except String (Model × RNG)
  predictO : Model → List (ℚ × ℚ) → Except String (List ℕ)
  confusionO : List ℕ → List ℕ → Except String Cm
  reportO : List ℕ → List ℕ → Except String String

/-- generate_data over the fallible library: reseed, draw the centers,
then call make_blobs; no handling around either call. -/
def generate_dataE (lib : Lib) (_g : RNG) (n : ℕ) (s : ℚ) (rs k : ℕ) :
    Except String ((List (ℚ × ℚ) × List ℕ) × RNG) := do
  let cg ← lib.uniformO (-4) 4 (-4) 4 k (RNG.seed 42)
  let xy ← lib.makeBlobsO n s cg.1 rs
  pure (xy, cg.2)

/-- train_and_evaluate_model over the fallible library: fit, predict,
confusion matrix, classification report, in source order, no handling. -/
def train_and_evaluate_modelE (lib : Lib) (nm : String) (X_train X_test : List (ℚ × ℚ))
    (y_train y_test : List ℕ) (g : RNG) : Except String ((Model × Cm × String) × RNG) := do
  let fr ← lib.fitO nm X_train y_train g
  let y_pred ← lib.predictO fr.1 X_test
  let cm ← lib.confusionO y_test y_pred
  let cr ← lib.reportO y_test y_pred
  pure ((fr.1, cm, cr), fr.2)

/-- visualize_classifier over the fallible library: the one library call
that can fail on data is the batch prediction over the mesh. -/
def visualize_classifierE (lib : Lib) (classifier : Model) (X : List (ℚ × ℚ))
    (y : List ℕ) (title : String) : Except String PlotSpec :=
  lib.predictO classifier (meshPoints X) >>= fun out =>
    Except.ok
      { title := title
        meshX := arange (colMin (X.map Prod.fst) - 1) (colMax (X.map Prod.fst) + 1) (1 / 100)
        meshY := arange (colMin (X.map Prod.snd) - 1) (colMax (X.map Prod.snd) + 1) (1 / 100)
        meshOutput := out
        scatter := X.zip y
        xlim := (colMin (arange (colMin (X.map Prod.fst) - 1) (colMax (X.map Prod.fst) + 1) (1 / 100)),
                 colMax (arange (colMin (X.map Prod.fst) - 1) (colMax (X.map Prod.fst) + 1) (1 / 100)))
        ylim := (colMin (arange (colMin (X.map Prod.snd) - 1) (colMax (X.map Prod.snd) + 1) (1 / 100)),
                 colMax (arange (colMin (X.map Prod.snd) - 1) (colMax (X.map Prod.snd) + 1) (1 / 100)))
        xticks := arange ((pyInt (colMin (X.map Prod.fst) - 1) : ℤ) : ℚ)
                         ((pyInt (colMax (X.map Prod.fst) + 1) : ℤ) : ℚ) 1
        yticks := arange ((pyInt (colMin (X.map Prod.snd) - 1) : ℤ) : ℚ)
                         ((pyInt (colMax (X.map Prod.snd) + 1) : ℤ) : ℚ) 1 }

/-- The fit/evaluate loop over the fallible library. -/
def runModelsE (lib : Lib) (X_train X_test : List (ℚ × ℚ)) (y_train y_test : List ℕ) :
    List String → RNG → Except String (List Entry × RNG)
  | [], g => Except.ok ([], g)
  | nm :: rest, g => do
    let r ← train_and_evaluate_modelE lib nm X_train X_test y_train y_test g
    let rr ← runModelsE lib X_train X_test y_train y_test rest r.2
    pure ((nm, r.1) :: rr.1, rr.2)

/-- The tab-rendering loop over the fallible library. -/
def renderTabsE (lib : Lib) (X_train : List (ℚ × ℚ)) (y_train : List ℕ) :
    List Entry → Except String (List Tab)
  | [] => Except.ok []
  | e :: rest => do
    let spec ← visualize_classifierE lib e.2.1 X_train y_train (e.1 ++ " Decision Boundary")
    let rt ← renderTabsE lib X_train y_train rest
    pure ({ name := e.1
            content := [Widget.subheaderW e.1,
                        Widget.heatmapW e.2.2.1 ("Predicted Labels") ("True Labels") ("Confusion Matrix"),
                        Widget.textW ("Classification Report"),
                        Widget.writeW e.2.2.2,
                        Widget.pyplotW spec] } :: rt)

/-- The whole of main over the fallible library, returning the rendered
tabs.  Pure data plumbing only; every fallible operation is a library
oracle and nothing is caught. -/
def mainE (lib : Lib) (g : RNG) (p : Params) : Except String (List Tab) := do
  let gd ← generate_dataE lib g p.n_samples p.cluster_std p.random_state p.n_clusters
  let sp ← lib.splitO gd.1.1 gd.1.2 p.random_state
  let scaler ← lib.scalerFitO sp.1
  let X_train ← lib.scalerTransformO scaler sp.1
  let X_test ← lib.scalerTransformO scaler sp.2.1
  let rm ← runModelsE lib X_train X_test sp.2.2.1 sp.2.2.2 modelNames gd.2
  renderTabsE lib X_train sp.2.2.1 rm.1

/-- The modelled library semantics with the documented argument checks:
every oracle computes the pure model value, erroring exactly when the
library documents a failure on the shape of its arguments (empty center
array, degenerate split, empty fit data, mismatched label vectors). -/
def realLib (mk : String → Classifier) : Lib where
  uniformO := fun a b c d k g => Except.ok (uniformPoints a b c d k g)
  makeBlobsO := fun n s C rs =>
    if 0 < C.length ∧ 0 < n then Except.ok (make_blobs n s C rs)
    else Except.error ("make_blobs: invalid arguments")
  splitO := fun X y rs =>
    if 0 < (3 * X.length + 9) / 10 ∧ (3 * X.length + 9) / 10 < X.length ∧ y.length = X.length
    then Except.ok (train_test_split X y rs)
    else Except.error ("train_test_split: degenerate split")
  scalerFitO := fun X =>
    if 0 < X.length then Except.ok (StandardScaler.fit X)
    else Except.error ("StandardScaler: empty data")
  scalerTransformO := fun s X => Except.ok (s.transform X)
  fitO := fun nm X y g => Except.ok ((mk nm).fit X y g)
  predictO := fun m X => Except.ok (predictList m X)
  confusionO := fun a b =>
    if a.length = b.length then Except.ok (confusion_matrix a b)
    else Except.error ("confusion_matrix: inconsistent lengths")
  reportO := fun a b =>
    if a.length = b.length then Except.ok (classification_report a b)
    else Except.error ("classification_report: inconsistent lengths")

/-- A library in which every call succeeds on every input. -/
def LibTotal (lib : Lib) : Prop :=
  (∀ a b c d k g, ∃ v, lib.uniformO a b c d k g = Except.ok v) ∧
  (∀ n s C rs, ∃ v, lib.makeBlobsO n s C rs = Except.ok v) ∧
  (∀ X y rs, ∃ v, lib.splitO X y rs = Except.ok v) ∧
  (∀ X, ∃ v, lib.scalerFitO X = Except.ok v) ∧
  (∀ s X, ∃ v, lib.scalerTransformO s X = Except.ok v) ∧
  (∀ nm X y g, ∃ v, lib.fitO nm X y g = Except.ok v) ∧
  (∀ m X, ∃ v, lib.predictO m X = Except.ok v) ∧
  (∀ a b, ∃ v, lib.confusionO a b = Except.ok v) ∧
  (∀ a b, ∃ v, lib.reportO a b = Except.ok v)

/-- The error e was raised by one of the library oracles (at some input):
the only way the application can ever report e. -/
def LibError (lib : Lib) (e : String) : Prop :=
  (∃ a b c d k g, lib.uniformO a b c d k g = Except.error e) ∨
  (∃ n s C rs, lib.makeBlobsO n s C rs = Except.error e) ∨
  (∃ X y rs, lib.splitO X y rs = Except.error e) ∨
  (∃ X, lib.scalerFitO X = Except.error e) ∨
  (∃ s X, lib.scalerTransformO s X = Except.error e) ∨
  (∃ nm X y g, lib.fitO nm X y g = Except.error e) ∨
  (∃ m X, lib.predictO m X = Except.error e) ∨
  (∃ a b, lib.confusionO a b = Except.error e) ∨
  (∃ a b, lib.reportO a b = Except.error e)

/-- A trivial classifier family, used to instantiate the universally
quantified theorems at a concrete input. -/
def mkConst : String → Classifier :=
  fun _ => ⟨fun _ _ g => ((fun _ => 0), g)⟩

/-- A concrete in-range parameter choice (the slider defaults, with the
cluster count at its minimum). -/
def pDefault : Params := ⟨500, 1 / 2, 42, 2⟩

/-- A tiny parameter choice for cheap concrete evaluation. -/
def pSmall : Params := ⟨3, 1, 0, 1⟩

/-- An always-succeeding oracle library (the pure model, no checks). -/
def libOk : Lib where
  uniformO := fun a b c d k g => Except.ok (uniformPoints a b c d k g)
  makeBlobsO := fun n s C rs => Except.ok (make_blobs n s C rs)
  splitO := fun X y rs => Except.ok (train_test_split X y rs)
  scalerFitO := fun X => Except.ok (StandardScaler.fit X)
  scalerTransformO := fun s X => Except.ok (s.transform X)
  fitO := fun nm X y g => Except.ok ((mkConst nm).fit X y g)
  predictO := fun m X => Except.ok (predictList m X)
  confusionO := fun a b => Except.ok (confusion_matrix a b)
  reportO := fun a b => Except.ok (classification_report a b)

/-- libOk with a failing first oracle, to exhibit error propagation. -/
def libFail : Lib :=
  { libOk with uniformO := fun _ _ _ _ _ _ => Except.error ("boom") }

/-! ### Helper lemmas about the modelled library primitives -/

theorem shuffleGo_length {α : Type} (fuel : ℕ) :
    ∀ (xs : List α) (g : RNG), ((shuffleGo fuel xs g).1).length = xs.length := by
  induction fuel with
  | zero => intro xs g; rfl
  | succ fuel ih =>
    intro xs g
    simp only [shuffleGo]
    split
    · rfl
    · next a h =>
      have hlt := (List.getElem?_eq_some_iff.mp h).1
      simp only [List.length_cons, ih]
      rw [List.length_eraseIdx_of_lt hlt]
      omega

theorem shuffleGo_subset {α : Type} (fuel : ℕ) :
    ∀ (xs : List α) (g : RNG) (a : α), a ∈ (shuffleGo fuel xs g).1 → a ∈ xs := by
  induction fuel with
  | zero => intro xs g a h; exact h
  | succ fuel ih =>
    intro xs g a h
    simp only [shuffleGo] at h
    split at h
    · exact h
    · next b hb =>
      rcases List.mem_cons.mp h with h1 | h2
      · obtain ⟨hlt, hget⟩ := List.getElem?_eq_some_iff.mp hb
        subst h1
        exact hget ▸ List.getElem_mem hlt
      · exact List.eraseIdx_subset _ _ (ih _ _ _ h2)

theorem shuffle_length {α : Type} (xs : List α) (g : RNG) :
    ((shuffle xs g).1).length = xs.length :=
  shuffleGo_length _ xs g

theorem shuffle_subset {α : Type} (xs : List α) (g : RNG) (a : α)
    (h : a ∈ (shuffle xs g).1) : a ∈ xs :=
  shuffleGo_subset _ xs g a h

theorem blobCluster_length (c : ℚ × ℚ) (std : ℚ) (label : ℕ) :
    ∀ (cnt : ℕ) (g : RNG), ((blobCluster c std label cnt g).1).length = cnt := by
  intro cnt
  induction cnt with
  | zero => intro g; rfl
  | succ cnt ih => intro g; simp [blobCluster, ih]

theorem blobCluster_label (c : ℚ × ℚ) (std : ℚ) (label : ℕ) :
    ∀ (cnt : ℕ) (g : RNG) (pr : (ℚ × ℚ) × ℕ),
      pr ∈ (blobCluster c std label cnt g).1 → pr.2 = label := by
  intro cnt
  induction cnt with
  | zero => intro g pr h; simp [blobCluster] at h
  | succ cnt ih =>
    intro g pr h
    simp only [blobCluster, List.mem_cons] at h
    rcases h with h | h
    · rw [h]
    · exact ih _ pr h

theorem genBlobsGo_length (std : ℚ) (n k : ℕ) :
    ∀ (cs : List (ℚ × ℚ)) (i : ℕ) (g : RNG), i + cs.length = k →
      ((genBlobsGo std n k cs i g).1).length
        = cs.length * (n / k) + (min k (n % k) - min i (n % k)) := by
  intro cs
  induction cs with
  | nil =>
    intro i g hi
    simp only [List.length_nil, Nat.add_zero] at hi
    subst hi
    simp [genBlobsGo]
  | cons c cs ih =>
    intro i g hi
    simp only [List.length_cons] at hi
    have hik : i < k := by omega
    simp only [genBlobsGo, List.length_append, blobCluster_length,
      ih (i + 1) _ (by omega), List.length_cons]
    have hsucc : (cs.length + 1) * (n / k) = n / k + cs.length * (n / k) := by ring
    rw [hsucc]
    rcases Nat.lt_or_ge i (n % k) with hir | hir
    · rw [if_pos hir, Nat.min_eq_left hir.le]
      have h1 : min (i + 1) (n % k) = i + 1 ∨ min (i + 1) (n % k) = n % k := by
        rcases Nat.le_total (i + 1) (n % k) with hle | hle
        · exact Or.inl (Nat.min_eq_left hle)
        · exact Or.inr (Nat.min_eq_right hle)
      have hkr : min k (n % k) = n % k ∨ min k (n % k) = k := by
        rcases Nat.le_total k (n % k) with hle | hle
        · exact Or.inr (Nat.min_eq_left hle)
        · exact Or.inl (Nat.min_eq_right hle)
      rcases h1 with h1 | h1 <;> rcases hkr with h2 | h2 <;> rw [h1, h2] <;> omega
    · rw [if_neg (by omega), Nat.min_eq_right hir]
      have h1 : min (i + 1) (n % k) = n % k := Nat.min_eq_right (by omega)
      rw [h1]
      omega

theorem genBlobsGo_labels (std : ℚ) (n k : ℕ) :
    ∀ (cs : List (ℚ × ℚ)) (i : ℕ) (g : RNG) (pr : (ℚ × ℚ) × ℕ),
      pr ∈ (genBlobsGo std n k cs i g).1 → pr.2 < i + cs.length := by
  intro cs
  induction cs with
  | nil => intro i g pr h; simp [genBlobsGo] at h
  | cons c cs ih =>
    intro i g pr h
    simp only [genBlobsGo, List.mem_append] at h
    simp only [List.length_cons]
    rcases h with h | h
    · have := blobCluster_label c std i _ _ pr h
      omega
    · have := ih (i + 1) _ pr h
      omega

theorem make_blobs_length (n : ℕ) (s : ℚ) (centers : List (ℚ × ℚ)) (rs : ℕ)
    (hk : 0 < centers.length) :
    ((make_blobs n s centers rs).1).length = n ∧
    ((make_blobs n s centers rs).2).length = n := by
  have h := genBlobsGo_length s n centers.length centers 0 (RNG.seed rs) (by omega)
  have hmod : n % centers.length < centers.length := Nat.mod_lt _ hk
  have hdm := Nat.div_add_mod n centers.length
  have hmin1 : min centers.length (n % centers.length) = n % centers.length :=
    Nat.min_eq_right hmod.le
  have hmin0 : min 0 (n % centers.length) = 0 := Nat.zero_min _
  rw [hmin1, hmin0, Nat.sub_zero] at h
  constructor <;>
  · simp only [make_blobs, List.length_map, shuffle, shuffleGo_length, h]
    omega

theorem make_blobs_labels (n : ℕ) (s : ℚ) (centers : List (ℚ × ℚ)) (rs : ℕ)
    (l : ℕ) (hl : l ∈ (make_blobs n s centers rs).2) : l < centers.length := by
  simp only [make_blobs, List.mem_map] at hl
  obtain ⟨pr, hpr, hl⟩ := hl
  have hmem := shuffle_subset _ _ pr hpr
  have := genBlobsGo_labels s n centers.length centers 0 (RNG.seed rs) pr hmem
  omega

theorem uniformPoints_length (x_min x_max y_min y_max : ℚ) :
    ∀ (n : ℕ) (g : RNG), ((uniformPoints x_min x_max y_min y_max n g).1).length = n := by
  intro n
  induction n with
  | zero => intro g; rfl
  | succ n ih => intro g; simp [uniformPoints, ih]

theorem unitFloat_nonneg (g : RNG) : 0 ≤ (RNG.unitFloat g).1 := by
  simp only [RNG.unitFloat, RNG.next]
  positivity

theorem unitFloat_le_one (g : RNG) : (RNG.unitFloat g).1 ≤ 1 := by
  simp only [RNG.unitFloat, RNG.next]
  rw [div_le_one (by norm_num)]
  have h : (1664525 * g.state + 1013904223) % 4294967296 < 4294967296 :=
    Nat.mod_lt _ (by norm_num)
  exact_mod_cast h.le

theorem uniformScalar_bounds (low high : ℚ) (g : RNG) (h : low ≤ high) :
    low ≤ (uniformScalar low high g).1 ∧ (uniformScalar low high g).1 ≤ high := by
  have h0 := unitFloat_nonneg g
  have h1 := unitFloat_le_one g
  have hd : 0 ≤ high - low := sub_nonneg.mpr h
  have h2 : 0 ≤ (RNG.unitFloat g).1 * (high - low) := mul_nonneg h0 hd
  have h3 : (RNG.unitFloat g).1 * (high - low) ≤ 1 * (high - low) :=
    mul_le_mul_of_nonneg_right h1 hd
  simp only [uniformScalar]
  constructor
  · linarith
  · linarith

theorem uniformPoints_mem (x_min x_max y_min y_max : ℚ)
    (hx : x_min ≤ x_max) (hy : y_min ≤ y_max) :
    ∀ (n : ℕ) (g : RNG) (pt : ℚ × ℚ),
      pt ∈ (uniformPoints x_min x_max y_min y_max n g).1 →
      x_min ≤ pt.1 ∧ pt.1 ≤ x_max ∧ y_min ≤ pt.2 ∧ pt.2 ≤ y_max := by
  intro n
  induction n with
  | zero => intro g pt h; simp [uniformPoints] at h
  | succ n ih =>
    intro g pt h
    simp only [uniformPoints, List.mem_cons] at h
    rcases h with h | h
    · obtain ⟨hx1, hx2⟩ := uniformScalar_bounds x_min x_max g hx
      obtain ⟨hy1, hy2⟩ := uniformScalar_bounds y_min y_max _ hy
      rw [h]
      exact ⟨hx1, hx2, hy1, hy2⟩
    · exact ih _ pt h

theorem filterMap_getElem_length {α : Type} (X : List α) :
    ∀ (idx : List ℕ), (∀ i ∈ idx, i < X.length) →
      (idx.filterMap (fun i => X[i]?)).length = idx.length := by
  intro idx
  induction idx with
  | nil => intro _; rfl
  | cons i idx ih =>
    intro h
    have hi : i < X.length := h i (List.mem_cons_self i idx)
    rw [List.filterMap_cons_some (List.getElem?_eq_getElem hi)]
    simp only [List.length_cons]
    rw [ih (fun j hj => h j (List.mem_cons_of_mem _ hj))]

theorem tts_lengths (X : List (ℚ × ℚ)) (y : List ℕ) (rs : ℕ)
    (hy : y.length = X.length) :
    ((train_test_split X y rs).1).length = X.length - (3 * X.length + 9) / 10 ∧
    ((train_test_split X y rs).2.1).length = min ((3 * X.length + 9) / 10) X.length ∧
    ((train_test_split X y rs).2.2.1).length = X.length - (3 * X.length + 9) / 10 ∧
    ((train_test_split X y rs).2.2.2).length = min ((3 * X.length + 9) / 10) X.length := by
  have hpl : ((shuffle (List.range X.length) (RNG.seed rs)).1).length = X.length := by
    rw [shuffle_length, List.length_range]
  have hpm : ∀ i ∈ (shuffle (List.range X.length) (RNG.seed rs)).1, i < X.length := by
    intro i hi
    exact List.mem_range.mp (shuffle_subset _ _ i hi)
  refine ⟨?_, ?_, ?_, ?_⟩
  · simp only [train_test_split]
    rw [filterMap_getElem_length X _ (fun i hi => hpm i (List.mem_of_mem_drop hi))]
    rw [List.length_drop, hpl]
  · simp only [train_test_split]
    rw [filterMap_getElem_length X _ (fun i hi => hpm i (List.mem_of_mem_take hi))]
    rw [List.length_take, hpl]
  · simp only [train_test_split]
    rw [filterMap_getElem_length y _ (fun i hi => hy ▸ hpm i (List.mem_of_mem_drop hi))]
    rw [List.length_drop, hpl]
  · simp only [train_test_split]
    rw [filterMap_getElem_length y _ (fun i hi => hy ▸ hpm i (List.mem_of_mem_take hi))]
    rw [List.length_take, hpl]

/-! ### Structural lemmas about the fit/evaluate and render loops -/

theorem runModels_trace (mk : String → Classifier) (Xtr Xte : List (ℚ × ℚ))
    (ytr yte : List ℕ) :
    ∀ (names : List String) (g : RNG),
      (runModels mk Xtr Xte ytr yte names g).2.1
        = names.flatMap (fun nm => [Step.fitModel nm, Step.evalModel nm]) := by
  intro names
  induction names with
  | nil => intro g; rfl
  | cons nm rest ih => intro g; simp [runModels, ih]

theorem runModels_names (mk : String → Classifier) (Xtr Xte : List (ℚ × ℚ))
    (ytr yte : List ℕ) :
    ∀ (names : List String) (g : RNG),
      ((runModels mk Xtr Xte ytr yte names g).1).map Prod.fst = names := by
  intro names
  induction names with
  | nil => intro g; rfl
  | cons nm rest ih => intro g; simp [runModels, ih]

theorem runModels_cm (mk : String → Classifier) (Xtr Xte : List (ℚ × ℚ))
    (ytr yte : List ℕ) :
    ∀ (names : List String) (g : RNG),
      ((runModels mk Xtr Xte ytr yte names g).1).map (fun e => e.2.2.1)
        = ((runModels mk Xtr Xte ytr yte names g).1).map
            (fun e => confusion_matrix yte (predictList e.2.1 Xte)) := by
  intro names
  induction names with
  | nil => intro g; rfl
  | cons nm rest ih => intro g; simp [runModels, train_and_evaluate_model, ih]

theorem renderTabs_tabs (Xtr : List (ℚ × ℚ)) (ytr : List ℕ) :
    ∀ (entries : List Entry),
      (renderTabs Xtr ytr entries).1
        = entries.map (fun e =>
            { name := e.1
              content := [Widget.subheaderW e.1,
                          Widget.heatmapW e.2.2.1 ("Predicted Labels") ("True Labels") ("Confusion Matrix"),
                          Widget.textW ("Classification Report"),
                          Widget.writeW e.2.2.2,
                          Widget.pyplotW (visualize_classifier e.2.1 Xtr ytr
                            (e.1 ++ " Decision Boundary"))] }) := by
  intro entries
  induction entries with
  | nil => rfl
  | cons e rest ih => simp [renderTabs, ih]

theorem renderTabs_trace (Xtr : List (ℚ × ℚ)) (ytr : List ℕ) :
    ∀ (entries : List Entry),
      (renderTabs Xtr ytr entries).2 = entries.map (fun e => Step.plotModel e.1) := by
  intro entries
  induction entries with
  | nil => rfl
  | cons e rest ih => simp [renderTabs, ih]

/-! ### Claim theorems (pure layer) -/

/-- C1: the program is a single linear pipeline in fixed order — generate
the data, split, scale, then fit and evaluate each of the six models
once, then plot each once; no step is reordered, repeated, or skipped. -/
theorem pipeline_fixed_order (mk : String → Classifier) (g : RNG) (p : Params) :
    (main mk g p).trace
      = [Step.genData, Step.splitData, Step.scaleData]
        ++ modelNames.flatMap (fun nm => [Step.fitModel nm, Step.evalModel nm])
        ++ modelNames.map Step.plotModel := by
  simp only [main]
  rw [runModels_trace, renderTabs_trace]
  have hcomp : (fun e : Entry => Step.plotModel e.1) = Step.plotModel ∘ Prod.fst := rfl
  rw [hcomp, ← List.map_map, runModels_names]

/-- C3: the pipeline is stateless between runs — whatever global generator
state a previous run left behind, a run with the same slider values
produces the same generated data and the same whole result (splits,
trained-model predictions, confusion matrices, reports, plots), because
generate_random_points_in_square reseeds the generator. -/
theorem main_stateless_between_runs (mk : String → Classifier) (p : Params)
    (g₁ g₂ : RNG) :
    (∀ n s rs k, generate_data g₁ n s rs k = generate_data g₂ n s rs k) ∧
    main mk g₁ p = main mk g₂ p :=
  ⟨fun _ _ _ _ => rfl, rfl⟩

/-- C4: every displayed confusion matrix is
confusion_matrix(y_test, model.predict(X_test)) for the trained model of that entry
model, where X_test and y_test are the held-out 30% test split (scaled
with the training-fitted scaler), not the training data. -/
theorem confusion_matrices_from_test_split (mk : String → Classifier) (g : RNG)
    (p : Params) :
    (main mk g p).results.map (fun e => e.2.2.1)
      = (main mk g p).results.map
          (fun e => confusion_matrix ((main mk g p).y_test)
              (predictList e.2.1 ((main mk g p).X_test))) ∧
    (main mk g p).y_test = (rawSplit g p).2.2.2 ∧
    (main mk g p).X_test
      = (StandardScaler.fit (rawSplit g p).1).transform (rawSplit g p).2.1 := by
  refine ⟨?_, rfl, rfl⟩
  exact runModels_cm mk ((main mk g p).X_train) ((main mk g p).X_test)
    ((main mk g p).y_train) ((main mk g p).y_test) modelNames
    ((generate_data g p.n_samples p.cluster_std p.random_state p.n_clusters).2)

/-- C5: standardization is fitted once on the raw training split only, the
same fitted transformation is applied to the test split, and the labels
pass through the split unchanged by scaling. -/
theorem standardization_train_only (mk : String → Classifier) (g : RNG) (p : Params) :
    (main mk g p).scaler = StandardScaler.fit (rawSplit g p).1 ∧
    (main mk g p).X_train
      = (StandardScaler.fit (rawSplit g p).1).transform (rawSplit g p).1 ∧
    (main mk g p).X_test
      = (StandardScaler.fit (rawSplit g p).1).transform (rawSplit g p).2.1 ∧
    (main mk g p).y_train = (rawSplit g p).2.2.1 ∧
    (main mk g p).y_test = (rawSplit g p).2.2.2 :=
  ⟨rfl, rfl, rfl, rfl, rfl⟩

/-- C6: for a positive cluster count, generate_data returns a feature
matrix with n_samples two-component rows and a label vector of length
n_samples whose entries all lie in 0, ..., n_clusters - 1. -/
theorem generate_data_shape_and_labels (g : RNG) (n : ℕ) (s : ℚ) (rs k : ℕ)
    (hk : 0 < k) :
    ((generate_data g n s rs k).1.1).length = n ∧
    ((generate_data g n s rs k).1.2).length = n ∧
    ∀ l ∈ (generate_data g n s rs k).1.2, l < k := by
  have hc : ((generate_random_points_in_square g (-4) 4 (-4) 4 k).1).length = k := by
    simp [generate_random_points_in_square, uniformPoints_length]
  have h1 := make_blobs_length n s (generate_random_points_in_square g (-4) 4 (-4) 4 k).1
    rs (by rw [hc]; exact hk)
  refine ⟨h1.1, h1.2, ?_⟩
  intro l hl
  have h2 := make_blobs_labels n s (generate_random_points_in_square g (-4) 4 (-4) 4 k).1
    rs l hl
  rw [hc] at h2
  exact h2

/-- Witness for C6 at a concrete input. -/
theorem generate_data_shape_and_labels_witness :
    0 < 1 ∧
    (((generate_data (RNG.seed 0) 3 1 0 1).1.1).length = 3 ∧
     ((generate_data (RNG.seed 0) 3 1 0 1).1.2).length = 3 ∧
     ∀ l ∈ (generate_data (RNG.seed 0) 3 1 0 1).1.2, l < 1) :=
  ⟨Nat.one_pos, generate_data_shape_and_labels (RNG.seed 0) 3 1 0 1 Nat.one_pos⟩

/-- C9: every point drawn by generate_random_points_in_square lies in the
closed rectangle spanned by its bounds; in particular every blob center
used by generate_data lies in [-4, 4] × [-4, 4]. -/
theorem generated_points_in_rectangle (g : RNG) (x_min x_max y_min y_max : ℚ)
    (k : ℕ) (hx : x_min ≤ x_max) (hy : y_min ≤ y_max) :
    (∀ pt ∈ (generate_random_points_in_square g x_min x_max y_min y_max k).1,
        x_min ≤ pt.1 ∧ pt.1 ≤ x_max ∧ y_min ≤ pt.2 ∧ pt.2 ≤ y_max) ∧
    (∀ c ∈ (generate_random_points_in_square g (-4) 4 (-4) 4 k).1,
        -4 ≤ c.1 ∧ c.1 ≤ 4 ∧ -4 ≤ c.2 ∧ c.2 ≤ 4) := by
  constructor
  · intro pt hpt
    exact uniformPoints_mem x_min x_max y_min y_max hx hy k _ pt hpt
  · intro c hc
    exact uniformPoints_mem (-4) 4 (-4) 4 (by norm_num) (by norm_num) k _ c hc

/-- Witness for C9 at a concrete input. -/
theorem generated_points_in_rectangle_witness :
    ((0 : ℚ) ≤ 1 ∧ (0 : ℚ) ≤ 2) ∧
    ((∀ pt ∈ (generate_random_points_in_square (RNG.seed 5) 0 1 0 2 2).1,
        0 ≤ pt.1 ∧ pt.1 ≤ 1 ∧ 0 ≤ pt.2 ∧ pt.2 ≤ 2) ∧
     (∀ c ∈ (generate_random_points_in_square (RNG.seed 5) (-4) 4 (-4) 4 2).1,
        -4 ≤ c.1 ∧ c.1 ≤ 4 ∧ -4 ≤ c.2 ∧ c.2 ≤ 4)) :=
  ⟨⟨by norm_num, by norm_num⟩,
   generated_points_in_rectangle (RNG.seed 5) 0 1 0 2 2 (by norm_num) (by norm_num)⟩

/-- C10: the blob centers are independent of the Random State slider and
of any pre-existing generator state: both calls of generate_data use the
same center array C (drawn after reseeding with the constant 42), and
random_state enters only make_blobs, the sampling around those
centers. -/
theorem centers_independent_of_random_state (g₁ g₂ : RNG) (n : ℕ) (s : ℚ)
    (rs₁ rs₂ k : ℕ) :
    ∃ C : List (ℚ × ℚ),
      (generate_random_points_in_square g₁ (-4) 4 (-4) 4 k).1 = C ∧
      (generate_random_points_in_square g₂ (-4) 4 (-4) 4 k).1 = C ∧
      (generate_data g₁ n s rs₁ k).1 = make_blobs n s C rs₁ ∧
      (generate_data g₂ n s rs₂ k).1 = make_blobs n s C rs₂ :=
  ⟨(uniformPoints (-4) 4 (-4) 4 k (RNG.seed 42)).1, rfl, rfl, rfl, rfl⟩

/-- C7: the rendered output has exactly one tab per model, named by the
six model names in order; the content of each tab is the subheader, the
confusion-matrix heatmap, the classification-report caption and text,
and the decision-boundary plot, so its displayed artifacts are exactly
the heatmap, the report, and the plot in that order; the sidebar holds
exactly the four parameter sliders. -/
theorem tabs_one_per_model (mk : String → Classifier) (g : RNG) (p : Params) :
    (main mk g p).tabs.map Tab.name = modelNames ∧
    modelNames.length = 6 ∧
    (main mk g p).tabs
      = (main mk g p).results.map (fun e =>
          { name := e.1
            content := [Widget.subheaderW e.1,
                        Widget.heatmapW e.2.2.1 ("Predicted Labels") ("True Labels") ("Confusion Matrix"),
                        Widget.textW ("Classification Report"),
                        Widget.writeW e.2.2.2,
                        Widget.pyplotW (visualize_classifier e.2.1 ((main mk g p).X_train)
                          ((main mk g p).y_train) (e.1 ++ " Decision Boundary"))] }) ∧
    (main mk g p).tabs.map (fun t => t.content.filter isArtifact)
      = (main mk g p).results.map (fun e =>
          [Widget.heatmapW e.2.2.1 ("Predicted Labels") ("True Labels") ("Confusion Matrix"),
           Widget.writeW e.2.2.2,
           Widget.pyplotW (visualize_classifier e.2.1 ((main mk g p).X_train)
             ((main mk g p).y_train) (e.1 ++ " Decision Boundary"))]) ∧
    (main mk g p).sidebar = sidebarWidgets := by
  have htabs :
      (main mk g p).tabs
        = (main mk g p).results.map (fun e =>
            { name := e.1
              content := [Widget.subheaderW e.1,
                          Widget.heatmapW e.2.2.1 ("Predicted Labels") ("True Labels") ("Confusion Matrix"),
                          Widget.textW ("Classification Report"),
                          Widget.writeW e.2.2.2,
                          Widget.pyplotW (visualize_classifier e.2.1 ((main mk g p).X_train)
                            ((main mk g p).y_train) (e.1 ++ " Decision Boundary"))] }) :=
    renderTabs_tabs ((main mk g p).X_train) ((main mk g p).y_train) ((main mk g p).results)
  have hnames : ((main mk g p).results).map Prod.fst = modelNames :=
    runModels_names mk ((main mk g p).X_train) ((main mk g p).X_test)
      ((main mk g p).y_train) ((main mk g p).y_test) modelNames
      ((generate_data g p.n_samples p.cluster_std p.random_state p.n_clusters).2)
  refine ⟨?_, rfl, htabs, ?_, rfl⟩
  · rw [htabs, List.map_map]
    exact hnames
  · rw [htabs, List.map_map]
    rfl

/-! ### Lemmas about the fallible-library layer -/

theorem ok_bind {α β : Type} (a : α) (f : α → Except String β) :
    (Except.ok a >>= f) = f a := rfl

theorem bind_eq_error {α β : Type} (x : Except String α) (f : α → Except String β)
    (e : String) (h : (x >>= f) = Except.error e) :
    x = Except.error e ∨ ∃ a, x = Except.ok a ∧ f a = Except.error e := by
  cases x with
  | error e2 =>
    left
    simp only [Bind.bind, Except.bind] at h
    cases h
    rfl
  | ok a =>
    right
    refine ⟨a, rfl, ?_⟩
    simp only [Bind.bind, Except.bind] at h
    exact h

theorem libError_uniform (lib : Lib) (e : String) (a b c d : ℚ) (k : ℕ) (g : RNG)
    (h : lib.uniformO a b c d k g = Except.error e) : LibError lib e :=
  Or.inl ⟨a, b, c, d, k, g, h⟩

theorem libError_makeBlobs (lib : Lib) (e : String) (n : ℕ) (s : ℚ)
    (C : List (ℚ × ℚ)) (rs : ℕ) (h : lib.makeBlobsO n s C rs = Except.error e) :
    LibError lib e :=
  Or.inr (Or.inl ⟨n, s, C, rs, h⟩)

theorem libError_split (lib : Lib) (e : String) (X : List (ℚ × ℚ)) (y : List ℕ)
    (rs : ℕ) (h : lib.splitO X y rs = Except.error e) : LibError lib e :=
  Or.inr (Or.inr (Or.inl ⟨X, y, rs, h⟩))

theorem libError_scalerFit (lib : Lib) (e : String) (X : List (ℚ × ℚ))
    (h : lib.scalerFitO X = Except.error e) : LibError lib e :=
  Or.inr (Or.inr (Or.inr (Or.inl ⟨X, h⟩)))

theorem libError_scalerTransform (lib : Lib) (e : String) (s : StandardScaler)
    (X : List (ℚ × ℚ)) (h : lib.scalerTransformO s X = Except.error e) :
    LibError lib e :=
  Or.inr (Or.inr (Or.inr (Or.inr (Or.inl ⟨s, X, h⟩))))

theorem libError_fit (lib : Lib) (e : String) (nm : String) (X : List (ℚ × ℚ))
    (y : List ℕ) (g : RNG) (h : lib.fitO nm X y g = Except.error e) :
    LibError lib e :=
  Or.inr (Or.inr (Or.inr (Or.inr (Or.inr (Or.inl ⟨nm, X, y, g, h⟩)))))

theorem libError_predict (lib : Lib) (e : String) (m : Model) (X : List (ℚ × ℚ))
    (h : lib.predictO m X = Except.error e) : LibError lib e :=
  Or.inr (Or.inr (Or.inr (Or.inr (Or.inr (Or.inr (Or.inl ⟨m, X, h⟩))))))

theorem libError_confusion (lib : Lib) (e : String) (a b : List ℕ)
    (h : lib.confusionO a b = Except.error e) : LibError lib e :=
  Or.inr (Or.inr (Or.inr (Or.inr (Or.inr (Or.inr (Or.inr (Or.inl ⟨a, b, h⟩)))))))

theorem libError_report (lib : Lib) (e : String) (a b : List ℕ)
    (h : lib.reportO a b = Except.error e) : LibError lib e :=
  Or.inr (Or.inr (Or.inr (Or.inr (Or.inr (Or.inr (Or.inr (Or.inr ⟨a, b, h⟩)))))))

theorem generate_dataE_error (lib : Lib) (g : RNG) (n : ℕ) (s : ℚ) (rs k : ℕ)
    (e : String) (h : generate_dataE lib g n s rs k = Except.error e) :
    LibError lib e := by
  simp only [generate_dataE] at h
  rcases bind_eq_error _ _ _ h with h1 | ⟨cg, hcg, h2⟩
  · exact libError_uniform lib e _ _ _ _ _ _ h1
  · rcases bind_eq_error _ _ _ h2 with h3 | ⟨xy, hxy, h4⟩
    · exact libError_makeBlobs lib e _ _ _ _ h3
    · simp [pure, Except.pure] at h4

theorem train_and_evaluate_modelE_error (lib : Lib) (nm : String)
    (Xtr Xte : List (ℚ × ℚ)) (ytr yte : List ℕ) (g : RNG) (e : String)
    (h : train_and_evaluate_modelE lib nm Xtr Xte ytr yte g = Except.error e) :
    LibError lib e := by
  simp only [train_and_evaluate_modelE] at h
  rcases bind_eq_error _ _ _ h with h1 | ⟨fr, hfr, h2⟩
  · exact libError_fit lib e _ _ _ _ h1
  rcases bind_eq_error _ _ _ h2 with h3 | ⟨yp, hyp, h4⟩
  · exact libError_predict lib e _ _ h3
  rcases bind_eq_error _ _ _ h4 with h5 | ⟨cm, hcm, h6⟩
  · exact libError_confusion lib e _ _ h5
  rcases bind_eq_error _ _ _ h6 with h7 | ⟨cr, hcr, h8⟩
  · exact libError_report lib e _ _ h7
  · simp [pure, Except.pure] at h8

theorem visualize_classifierE_error (lib : Lib) (m : Model) (X : List (ℚ × ℚ))
    (y : List ℕ) (t : String) (e : String)
    (h : visualize_classifierE lib m X y t = Except.error e) : LibError lib e := by
  simp only [visualize_classifierE] at h
  rcases bind_eq_error _ _ _ h with h1 | ⟨out, hout, h2⟩
  · exact libError_predict lib e _ _ h1
  · cases h2

theorem runModelsE_error (lib : Lib) (Xtr Xte : List (ℚ × ℚ)) (ytr yte : List ℕ) :
    ∀ (names : List String) (g : RNG) (e : String),
      runModelsE lib Xtr Xte ytr yte names g = Except.error e → LibError lib e := by
  intro names
  induction names with
  | nil => intro g e h; simp [runModelsE] at h
  | cons nm rest ih =>
    intro g e h
    simp only [runModelsE] at h
    rcases bind_eq_error _ _ _ h with h1 | ⟨r, hr, h2⟩
    · exact train_and_evaluate_modelE_error lib nm Xtr Xte ytr yte g e h1
    · rcases bind_eq_error _ _ _ h2 with h3 | ⟨rr, hrr, h4⟩
      · exact ih _ _ h3
      · simp [pure, Except.pure] at h4

theorem renderTabsE_error (lib : Lib) (Xtr : List (ℚ × ℚ)) (ytr : List ℕ) :
    ∀ (entries : List Entry) (e : String),
      renderTabsE lib Xtr ytr entries = Except.error e → LibError lib e := by
  intro entries
  induction entries with
  | nil => intro e h; simp [renderTabsE] at h
  | cons en rest ih =>
    intro e h
    simp only [renderTabsE] at h
    rcases bind_eq_error _ _ _ h with h1 | ⟨spec, hspec, h2⟩
    · exact visualize_classifierE_error lib _ _ _ _ e h1
    · rcases bind_eq_error _ _ _ h2 with h3 | ⟨rt, hrt, h4⟩
      · exact ih _ h3
      · simp [pure, Except.pure] at h4

theorem mainE_error (lib : Lib) (g : RNG) (p : Params) (e : String)
    (h : mainE lib g p = Except.error e) : LibError lib e := by
  simp only [mainE] at h
  rcases bind_eq_error _ _ _ h with h1 | ⟨gd, hgd, h2⟩
  · exact generate_dataE_error lib g _ _ _ _ e h1
  rcases bind_eq_error _ _ _ h2 with h3 | ⟨sp, hsp, h4⟩
  · exact libError_split lib e _ _ _ h3
  rcases bind_eq_error _ _ _ h4 with h5 | ⟨sc, hsc, h6⟩
  · exact libError_scalerFit lib e _ h5
  rcases bind_eq_error _ _ _ h6 with h7 | ⟨Xtr, hXtr, h8⟩
  · exact libError_scalerTransform lib e _ _ h7
  rcases bind_eq_error _ _ _ h8 with h9 | ⟨Xte, hXte, h10⟩
  · exact libError_scalerTransform lib e _ _ h9
  rcases bind_eq_error _ _ _ h10 with h11 | ⟨rm, hrm, h12⟩
  · exact runModelsE_error lib _ _ _ _ modelNames _ e h11
  · exact renderTabsE_error lib _ _ _ e h12

theorem train_and_evaluate_modelE_ok (lib : Lib) (hT : LibTotal lib) (nm : String)
    (Xtr Xte : List (ℚ × ℚ)) (ytr yte : List ℕ) (g : RNG) :
    ∃ v, train_and_evaluate_modelE lib nm Xtr Xte ytr yte g = Except.ok v := by
  obtain ⟨fr, hfr⟩ := hT.2.2.2.2.2.1 nm Xtr ytr g
  obtain ⟨yp, hyp⟩ := hT.2.2.2.2.2.2.1 fr.1 Xte
  obtain ⟨cm, hcm⟩ := hT.2.2.2.2.2.2.2.1 yte yp
  obtain ⟨cr, hcr⟩ := hT.2.2.2.2.2.2.2.2 yte yp
  refine ⟨((fr.1, cm, cr), fr.2), ?_⟩
  simp only [train_and_evaluate_modelE, hfr, ok_bind, hyp, hcm, hcr]
  rfl

theorem runModelsE_ok (lib : Lib) (hT : LibTotal lib) (Xtr Xte : List (ℚ × ℚ))
    (ytr yte : List ℕ) :
    ∀ (names : List String) (g : RNG),
      ∃ v, runModelsE lib Xtr Xte ytr yte names g = Except.ok v := by
  intro names
  induction names with
  | nil => intro g; exact ⟨([], g), rfl⟩
  | cons nm rest ih =>
    intro g
    obtain ⟨r, hr⟩ := train_and_evaluate_modelE_ok lib hT nm Xtr Xte ytr yte g
    obtain ⟨rr, hrr⟩ := ih r.2
    refine ⟨((nm, r.1) :: rr.1, rr.2), ?_⟩
    simp only [runModelsE, hr, ok_bind, hrr]
    rfl

theorem visualize_classifierE_ok (lib : Lib) (hT : LibTotal lib) (m : Model)
    (X : List (ℚ × ℚ)) (y : List ℕ) (t : String) :
    ∃ v, visualize_classifierE lib m X y t = Except.ok v := by
  obtain ⟨out, hout⟩ := hT.2.2.2.2.2.2.1 m (meshPoints X)
  unfold visualize_classifierE
  rw [hout, ok_bind]
  exact ⟨_, rfl⟩

theorem renderTabsE_ok (lib : Lib) (hT : LibTotal lib) (Xtr : List (ℚ × ℚ))
    (ytr : List ℕ) :
    ∀ (entries : List Entry), ∃ v, renderTabsE lib Xtr ytr entries = Except.ok v := by
  intro entries
  induction entries with
  | nil => exact ⟨[], rfl⟩
  | cons en rest ih =>
    obtain ⟨spec, hspec⟩ := visualize_classifierE_ok lib hT en.2.1 Xtr ytr
      (en.1 ++ " Decision Boundary")
    obtain ⟨rt, hrt⟩ := ih
    simp only [renderTabsE, hspec, ok_bind, hrt]
    exact ⟨_, rfl⟩

theorem mainE_ok_of_total (lib : Lib) (hT : LibTotal lib) (g : RNG) (p : Params) :
    ∃ v, mainE lib g p = Except.ok v := by
  obtain ⟨cg, hcg⟩ := hT.1 (-4) 4 (-4) 4 p.n_clusters (RNG.seed 42)
  obtain ⟨xy, hxy⟩ := hT.2.1 p.n_samples p.cluster_std cg.1 p.random_state
  have hgd : generate_dataE lib g p.n_samples p.cluster_std p.random_state p.n_clusters
      = Except.ok (xy, cg.2) := by
    simp only [generate_dataE, hcg, ok_bind, hxy]
    rfl
  obtain ⟨sp, hsp⟩ := hT.2.2.1 xy.1 xy.2 p.random_state
  obtain ⟨sc, hsc⟩ := hT.2.2.2.1 sp.1
  obtain ⟨Xtr, hXtr⟩ := hT.2.2.2.2.1 sc sp.1
  obtain ⟨Xte, hXte⟩ := hT.2.2.2.2.1 sc sp.2.1
  obtain ⟨rm, hrm⟩ := runModelsE_ok lib hT Xtr Xte sp.2.2.1 sp.2.2.2 modelNames cg.2
  obtain ⟨tabs, htabs⟩ := renderTabsE_ok lib hT Xtr sp.2.2.1 rm.1
  refine ⟨tabs, ?_⟩
  simp only [mainE, hgd, ok_bind, hsp, hsc, hXtr, hXte, hrm, htabs]

theorem libOk_total : LibTotal libOk :=
  ⟨fun _ _ _ _ _ _ => ⟨_, rfl⟩, fun _ _ _ _ => ⟨_, rfl⟩, fun _ _ _ => ⟨_, rfl⟩,
   fun _ => ⟨_, rfl⟩, fun _ _ => ⟨_, rfl⟩, fun _ _ _ _ => ⟨_, rfl⟩,
   fun _ _ => ⟨_, rfl⟩, fun _ _ => ⟨_, rfl⟩, fun _ _ => ⟨_, rfl⟩⟩

/-- Length of a transformed feature list. -/
theorem transform_length (sc : StandardScaler) (X : List (ℚ × ℚ)) :
    (sc.transform X).length = X.length :=
  List.length_map _ _

theorem bind_isOk {α β : Type} (x : Except String α) (f : α → Except String β)
    (hx : ∃ a, x = Except.ok a)
    (hf : ∀ a, x = Except.ok a → ∃ b, f a = Except.ok b) :
    ∃ b, (x >>= f) = Except.ok b := by
  obtain ⟨a, ha⟩ := hx
  rw [ha, ok_bind]
  exact hf a ha

theorem runModelsE_realLib_ok (mk : String → Classifier) (Xtr Xte : List (ℚ × ℚ))
    (ytr yte : List ℕ) (hlen : yte.length = Xte.length) :
    ∀ (names : List String) (g : RNG),
      ∃ v, runModelsE (realLib mk) Xtr Xte ytr yte names g = Except.ok v := by
  intro names
  induction names with
  | nil => intro g; exact ⟨([], g), rfl⟩
  | cons nm rest ih =>
    intro g
    have htam : ∃ v, train_and_evaluate_modelE (realLib mk) nm Xtr Xte ytr yte g
        = Except.ok v := by
      simp only [train_and_evaluate_modelE]
      refine bind_isOk _ _ ⟨_, rfl⟩ ?_
      intro fr hfr
      refine bind_isOk _ _ ⟨_, rfl⟩ ?_
      intro yp hyp
      have hypEq : yp = predictList fr.1 Xte := by
        simp only [realLib] at hyp
        exact ((Except.ok.injEq _ _).mp hyp).symm
      subst hypEq
      refine bind_isOk _ _ ?_ ?_
      · simp only [realLib]
        rw [if_pos]
        · exact ⟨_, rfl⟩
        · simp [predictList, hlen]
      intro cm hcm
      refine bind_isOk _ _ ?_ ?_
      · simp only [realLib]
        rw [if_pos]
        · exact ⟨_, rfl⟩
        · simp [predictList, hlen]
      intro cr hcr
      exact ⟨_, rfl⟩
    obtain ⟨r, hr⟩ := htam
    obtain ⟨rr, hrr⟩ := ih r.2
    simp only [runModelsE, hr, ok_bind, hrr]
    exact ⟨_, rfl⟩

theorem renderTabsE_realLib_ok (mk : String → Classifier) (Xtr : List (ℚ × ℚ))
    (ytr : List ℕ) :
    ∀ (entries : List Entry),
      ∃ v, renderTabsE (realLib mk) Xtr ytr entries = Except.ok v := by
  intro entries
  induction entries with
  | nil => exact ⟨[], rfl⟩
  | cons en rest ih =>
    have hvc : ∃ v, visualize_classifierE (realLib mk) en.2.1 Xtr ytr
        (en.1 ++ " Decision Boundary") = Except.ok v := by
      unfold visualize_classifierE
      rw [show (realLib mk).predictO en.2.1 (meshPoints Xtr)
          = Except.ok (predictList en.2.1 (meshPoints Xtr)) from rfl, ok_bind]
      exact ⟨_, rfl⟩
    obtain ⟨spec, hspec⟩ := hvc
    obtain ⟨rt, hrt⟩ := ih
    simp only [renderTabsE, hspec, ok_bind, hrt]
    exact ⟨_, rfl⟩

/-! ### Claim theorems (fallible-library layer) -/

/-- C8: the application performs no input validation and catches nothing —
whenever any of generate_data, train_and_evaluate_model,
visualize_classifier, or main reports an error, that error is exactly
one raised by a library oracle (propagated unchanged), and when every
library call succeeds the whole of main succeeds, raising nothing of its
own. -/
theorem errors_propagate_unchanged :
    (∀ (lib : Lib) (g : RNG) (n : ℕ) (s : ℚ) (rs k : ℕ) (e : String),
        generate_dataE lib g n s rs k = Except.error e → LibError lib e) ∧
    (∀ (lib : Lib) (nm : String) (Xtr Xte : List (ℚ × ℚ)) (ytr yte : List ℕ)
        (g : RNG) (e : String),
        train_and_evaluate_modelE lib nm Xtr Xte ytr yte g = Except.error e →
          LibError lib e) ∧
    (∀ (lib : Lib) (m : Model) (X : List (ℚ × ℚ)) (y : List ℕ) (t e : String),
        visualize_classifierE lib m X y t = Except.error e → LibError lib e) ∧
    (∀ (lib : Lib) (g : RNG) (p : Params) (e : String),
        mainE lib g p = Except.error e → LibError lib e) ∧
    (∀ lib : Lib, LibTotal lib → ∀ (g : RNG) (p : Params),
        ∃ r, mainE lib g p = Except.ok r) :=
  ⟨generate_dataE_error, train_and_evaluate_modelE_error, visualize_classifierE_error,
   mainE_error, fun lib hT g p => mainE_ok_of_total lib hT g p⟩

/-- Witness for C8: a failing first library call makes main report exactly
that error, and with an all-succeeding library main succeeds. -/
theorem errors_propagate_unchanged_witness :
    LibError libFail ("boom") ∧
    (∃ r, mainE libOk (RNG.seed 0) pSmall = Except.ok r) :=
  ⟨errors_propagate_unchanged.2.2.2.1 libFail (RNG.seed 0) pSmall ("boom") rfl,
   errors_propagate_unchanged.2.2.2.2 libOk libOk_total (RNG.seed 0) pSmall⟩

/-- C2: for every slider combination inside the permitted ranges, every
modelled library call in the pipeline satisfies its documented
precondition, so the whole run of main completes without an error. -/
theorem pipeline_succeeds_in_slider_ranges (mk : String → Classifier) (g : RNG)
    (p : Params) (hp : InRange p) :
    ∃ r, mainE (realLib mk) g p = Except.ok r := by
  obtain ⟨hn1, hn2, hs1, hs2, hrs, hk1, hk2⟩ := hp
  have hkpos : 0 < ((uniformPoints (-4) 4 (-4) 4 p.n_clusters (RNG.seed 42)).1).length := by
    rw [uniformPoints_length]
    omega
  have huni : (realLib mk).uniformO (-4) 4 (-4) 4 p.n_clusters (RNG.seed 42)
      = Except.ok (uniformPoints (-4) 4 (-4) 4 p.n_clusters (RNG.seed 42)) := rfl
  have hmb : (realLib mk).makeBlobsO p.n_samples p.cluster_std
      ((uniformPoints (-4) 4 (-4) 4 p.n_clusters (RNG.seed 42)).1) p.random_state
      = Except.ok (make_blobs p.n_samples p.cluster_std
          ((uniformPoints (-4) 4 (-4) 4 p.n_clusters (RNG.seed 42)).1) p.random_state) := by
    simp only [realLib]
    rw [if_pos]
    exact ⟨hkpos, by omega⟩
  have hgd : generate_dataE (realLib mk) g p.n_samples p.cluster_std p.random_state
      p.n_clusters
      = Except.ok ((make_blobs p.n_samples p.cluster_std
          ((uniformPoints (-4) 4 (-4) 4 p.n_clusters (RNG.seed 42)).1) p.random_state),
          (uniformPoints (-4) 4 (-4) 4 p.n_clusters (RNG.seed 42)).2) := by
    simp only [generate_dataE, huni, ok_bind, hmb]
    rfl
  have hX : ((make_blobs p.n_samples p.cluster_std
      ((uniformPoints (-4) 4 (-4) 4 p.n_clusters (RNG.seed 42)).1) p.random_state).1).length
      = p.n_samples :=
    (make_blobs_length p.n_samples p.cluster_std _ p.random_state hkpos).1
  have hy : ((make_blobs p.n_samples p.cluster_std
      ((uniformPoints (-4) 4 (-4) 4 p.n_clusters (RNG.seed 42)).1) p.random_state).2).length
      = p.n_samples :=
    (make_blobs_length p.n_samples p.cluster_std _ p.random_state hkpos).2
  simp only [mainE, hgd, ok_bind]
  refine bind_isOk _ _ ?_ ?_
  · simp only [realLib]
    rw [if_pos]
    · exact ⟨_, rfl⟩
    · refine ⟨?_, ?_, ?_⟩ <;> omega
  intro sp hsp
  have hspEq : sp = train_test_split
      (make_blobs p.n_samples p.cluster_std
        ((uniformPoints (-4) 4 (-4) 4 p.n_clusters (RNG.seed 42)).1) p.random_state).1
      (make_blobs p.n_samples p.cluster_std
        ((uniformPoints (-4) 4 (-4) 4 p.n_clusters (RNG.seed 42)).1) p.random_state).2
      p.random_state := by
    simp only [realLib] at hsp
    rw [if_pos] at hsp
    · exact ((Except.ok.injEq _ _).mp hsp).symm
    · refine ⟨?_, ?_, ?_⟩ <;> omega
  subst hspEq
  obtain ⟨hl1, hl2, hl3, hl4⟩ := tts_lengths
    (make_blobs p.n_samples p.cluster_std
      ((uniformPoints (-4) 4 (-4) 4 p.n_clusters (RNG.seed 42)).1) p.random_state).1
    (make_blobs p.n_samples p.cluster_std
      ((uniformPoints (-4) 4 (-4) 4 p.n_clusters (RNG.seed 42)).1) p.random_state).2
    p.random_state (by omega)
  refine bind_isOk _ _ ?_ ?_
  · simp only [realLib]
    rw [if_pos]
    · exact ⟨_, rfl⟩
    · omega
  intro sc hsc
  have hscEq : sc = StandardScaler.fit (train_test_split
      (make_blobs p.n_samples p.cluster_std
        ((uniformPoints (-4) 4 (-4) 4 p.n_clusters (RNG.seed 42)).1) p.random_state).1
      (make_blobs p.n_samples p.cluster_std
        ((uniformPoints (-4) 4 (-4) 4 p.n_clusters (RNG.seed 42)).1) p.random_state).2
      p.random_state).1 := by
    simp only [realLib] at hsc
    rw [if_pos] at hsc
    · exact ((Except.ok.injEq _ _).mp hsc).symm
    · omega
  subst hscEq
  refine bind_isOk _ _ ⟨_, rfl⟩ ?_
  intro Xtr hXtr
  have hXtrEq : Xtr = (StandardScaler.fit (train_test_split
      (make_blobs p.n_samples p.cluster_std
        ((uniformPoints (-4) 4 (-4) 4 p.n_clusters (RNG.seed 42)).1) p.random_state).1
      (make_blobs p.n_samples p.cluster_std
        ((uniformPoints (-4) 4 (-4) 4 p.n_clusters (RNG.seed 42)).1) p.random_state).2
      p.random_state).1).transform (train_test_split
      (make_blobs p.n_samples p.cluster_std
        ((uniformPoints (-4) 4 (-4) 4 p.n_clusters (RNG.seed 42)).1) p.random_state).1
      (make_blobs p.n_samples p.cluster_std
        ((uniformPoints (-4) 4 (-4) 4 p.n_clusters (RNG.seed 42)).1) p.random_state).2
      p.random_state).1 := by
    simp only [realLib] at hXtr
    exact ((Except.ok.injEq _ _).mp hXtr).symm
  subst hXtrEq
  refine bind_isOk _ _ ⟨_, rfl⟩ ?_
  intro Xte hXte
  have hXteEq : Xte = (StandardScaler.fit (train_test_split
      (make_blobs p.n_samples p.cluster_std
        ((uniformPoints (-4) 4 (-4) 4 p.n_clusters (RNG.seed 42)).1) p.random_state).1
      (make_blobs p.n_samples p.cluster_std
        ((uniformPoints (-4) 4 (-4) 4 p.n_clusters (RNG.seed 42)).1) p.random_state).2
      p.random_state).1).transform (train_test_split
      (make_blobs p.n_samples p.cluster_std
        ((uniformPoints (-4) 4 (-4) 4 p.n_clusters (RNG.seed 42)).1) p.random_state).1
      (make_blobs p.n_samples p.cluster_std
        ((uniformPoints (-4) 4 (-4) 4 p.n_clusters (RNG.seed 42)).1) p.random_state).2
      p.random_state).2.1 := by
    simp only [realLib] at hXte
    exact ((Except.ok.injEq _ _).mp hXte).symm
  subst hXteEq
  refine bind_isOk _ _ ?_ ?_
  · refine runModelsE_realLib_ok mk _ _ _ _ ?_ modelNames _
    rw [transform_length]
    omega
  intro rm hrm
  exact renderTabsE_realLib_ok mk _ _ rm.1

/-- Witness for C2 at the default slider values. -/
theorem pipeline_succeeds_in_slider_ranges_witness :
    InRange pDefault ∧
    (∃ r, mainE (realLib mkConst) (RNG.seed 0) pDefault = Except.ok r) :=
  ⟨by constructor <;> norm_num [pDefault],
   pipeline_succeeds_in_slider_ranges mkConst (RNG.seed 0) pDefault
     (by constructor <;> norm_num [pDefault])⟩

end DecisionBoundaries
